import Mathlib

/-!
# Focus Writer Pro — session-core verification

A shallow embedding of the session lifecycle core of the Focus Writer Pro
application: the renderer-side `FocusWriterApp` session state machine
(`startSession`, `tick`, `handleEditorInput`, `goalReached`, `keepWriting`,
`saveAndExit`, `checkEmergencyPhrase`, `countWords`, `formatTime`) and the
main-process IPC handlers (`start-session`, `goal-reached`, `end-session`,
`emergency-exit`) together with the persistence helpers (`saveContent`,
`archiveDraft`, `logSession`) and the window close guard.

JavaScript numbers are modelled as `Int` (all quantities involved are exact
integers well inside the double-precision range; where the source uses
`Math.floor` of a division the embedding uses `Int.fdiv`).  Timer handles
(`setInterval` ids) are modelled as `Bool` flags recording whether the
interval is currently installed.  Side effects on the persistence layer and
on the main-process window state are modelled by explicit state records.
-/

namespace FocusWriter

/-! ## Word counting (renderer `countWords`)

The source:
```
countWords(text) {
  if (!text || !text.trim()) return 0;
  return text.trim().split(/\s+/).filter(word => word.length > 0).length;
}
```
-/

/-- Characters matched by the JavaScript `\s` regex class and trimmed by
`String.prototype.trim` (the ASCII whitespace characters plus NBSP; the
further Unicode space separators matched by `\s` are handled identically by
every definition below, so restricting the class does not affect any
theorem in this file). -/
def jsWhitespace (c : Char) : Bool :=
  c = ' ' || c = '\t' || c = '\n' || c = '\r' ||
  c = '\x0b' || c = '\x0c' || c = '\xa0'

/-- JavaScript `String.prototype.trim` on a character list: drop leading and
trailing whitespace. -/
def jsTrimList (l : List Char) : List Char :=
  (((l.dropWhile jsWhitespace).reverse.dropWhile jsWhitespace)).reverse

/-- JavaScript `String.prototype.trim`. -/
def jsTrimStr (s : String) : String :=
  String.mk (jsTrimList s.toList)

/-- JavaScript `str.split(/\s+/)`: the (possibly empty) segments between
maximal whitespace runs.  Leading or trailing whitespace contributes an
empty segment at the corresponding end, exactly as in JavaScript
(`" a ".split(/\s+/) === ["", "a", ""]`).  The `inWs` flag records whether
the scan is currently inside a whitespace run (the run is one separator),
`acc` accumulates the current segment in reverse. -/
def jsSplitWsAux : Bool → List Char → List Char → List (List Char)
  | _, [], acc => [acc.reverse]
  | inWs, c :: cs, acc =>
    if jsWhitespace c then
      if inWs then jsSplitWsAux true cs acc
      else acc.reverse :: jsSplitWsAux true cs []
    else
      jsSplitWsAux false cs (c :: acc)

/-- `str.split(/\s+/)` on a string. -/
def jsSplitWs (l : List Char) : List (List Char) :=
  jsSplitWsAux false l []

/-- Renderer `countWords`: trim, split on whitespace runs, keep the
non-empty tokens, count them; empty or whitespace-only text short-circuits
to `0` (the `!text || !text.trim()` guard). -/
def countWords (text : String) : Nat :=
  if text.toList.isEmpty || (jsTrimList text.toList).isEmpty then 0
  else
    ((jsSplitWs (jsTrimList text.toList)).filter
      (fun w => 0 < w.length)).length

/-- Modelled from the spec: "split on whitespace runs, discard empty
tokens" — a direct tokenizer producing the maximal non-whitespace runs of
the input, with no separate trim pass and no emptiness short-circuit.  Used
only to compare `countWords` against the spec's wording. -/
def specSplitAux : List Char → List Char → List (List Char)
  | [], acc => if acc.isEmpty then [] else [acc.reverse]
  | c :: cs, acc =>
    if jsWhitespace c then
      if acc.isEmpty then specSplitAux cs []
      else acc.reverse :: specSplitAux cs []
    else
      specSplitAux cs (c :: acc)

/-- Modelled from the spec: the word count as described — the number of
non-empty whitespace-separated tokens of the raw text. -/
def countWordsSpec (text : String) : Nat :=
  (specSplitAux text.toList []).length

/-! ### Word-counting lemmas -/

theorem specSplitAux_dropWhile (cs : List Char) :
    specSplitAux (cs.dropWhile jsWhitespace) [] = specSplitAux cs [] := by
  induction cs with
  | nil => rfl
  | cons c cs ih =>
    by_cases h : jsWhitespace c
    · rw [List.dropWhile_cons_of_pos h, ih]
      simp [specSplitAux, h]
    · rw [List.dropWhile_cons_of_neg h]

theorem filter_jsSplitWsAux (l : List Char) :
    ∀ (inWs : Bool) (acc : List Char), (inWs = true → acc = []) →
    (jsSplitWsAux inWs l acc).filter (fun w => 0 < w.length)
      = specSplitAux l acc := by
  induction l with
  | nil =>
    intro inWs acc _
    rcases acc with _ | ⟨a, as⟩
    · cases inWs <;> simp [jsSplitWsAux, specSplitAux]
    · cases inWs <;>
        simp [jsSplitWsAux, specSplitAux, List.filter, Nat.succ_le_iff]
  | cons c cs ih =>
    intro inWs acc hinv
    by_cases h : jsWhitespace c
    · cases inWs with
      | true =>
        have hacc : acc = [] := hinv rfl
        subst hacc
        simp only [jsSplitWsAux, h, if_true, reduceIte]
        rw [ih true [] (fun _ => rfl)]
        simp [specSplitAux, h]
      | false =>
        have hstep : jsSplitWsAux false (c :: cs) acc
            = acc.reverse :: jsSplitWsAux true cs [] := by
          simp [jsSplitWsAux, h]
        rw [hstep, List.filter_cons, ih true [] (fun _ => rfl)]
        rcases acc with _ | ⟨a, as⟩
        · simp [specSplitAux, h]
        · simp [specSplitAux, h, Nat.succ_le_iff]
    · simp only [jsSplitWsAux, specSplitAux, h, Bool.false_eq_true, if_false,
        reduceIte]
      exact ih false (c :: acc) (fun hx => absurd hx (by simp))

theorem specSplitAux_ws_nil (t : List Char) (hws : ∀ c ∈ t, jsWhitespace c) :
    ∀ acc, specSplitAux t acc = specSplitAux [] acc := by
  induction t with
  | nil => intro acc; rfl
  | cons c cs ih =>
    intro acc
    have hc : jsWhitespace c := hws c (by simp)
    have ihcs := ih (fun d hd => hws d (by simp [hd]))
    have hnil : specSplitAux cs [] = [] := by
      rw [ihcs []]; rfl
    rcases acc with _ | ⟨a, as⟩
    · simp [specSplitAux, hc, hnil]
    · simp [specSplitAux, hc, hnil]

theorem specSplitAux_append_ws (t : List Char) (hws : ∀ c ∈ t, jsWhitespace c)
    (l : List Char) : ∀ acc, specSplitAux (l ++ t) acc = specSplitAux l acc := by
  induction l with
  | nil =>
    intro acc
    rw [List.nil_append]
    exact specSplitAux_ws_nil t hws acc
  | cons c cs ih =>
    intro acc
    by_cases h : jsWhitespace c
    · rcases acc with _ | ⟨a, as⟩ <;>
        simp [specSplitAux, h, List.cons_append, ih]
    · simp only [List.cons_append, specSplitAux, h, Bool.false_eq_true,
        if_neg, not_false_iff]
      exact ih (c :: acc)

theorem specSplitAux_trim (l : List Char) :
    specSplitAux (jsTrimList l) [] = specSplitAux l [] := by
  unfold jsTrimList
  set l1 := l.dropWhile jsWhitespace with hl1
  have hsplit : l1 = (l1.reverse.dropWhile jsWhitespace).reverse
      ++ (l1.reverse.takeWhile jsWhitespace).reverse := by
    have := List.takeWhile_append_dropWhile (p := jsWhitespace) (l := l1.reverse)
    calc l1 = l1.reverse.reverse := by rw [List.reverse_reverse]
    _ = (l1.reverse.takeWhile jsWhitespace
          ++ l1.reverse.dropWhile jsWhitespace).reverse := by rw [this]
    _ = _ := by rw [List.reverse_append]
  have hws : ∀ c ∈ (l1.reverse.takeWhile jsWhitespace).reverse, jsWhitespace c := by
    intro c hc
    rw [List.mem_reverse] at hc
    exact List.mem_takeWhile_imp hc
  calc specSplitAux (l1.reverse.dropWhile jsWhitespace).reverse []
      = specSplitAux ((l1.reverse.dropWhile jsWhitespace).reverse
          ++ (l1.reverse.takeWhile jsWhitespace).reverse) [] := by
        rw [specSplitAux_append_ws _ hws]
  _ = specSplitAux l1 [] := by rw [← hsplit]
  _ = specSplitAux l [] := by rw [hl1, specSplitAux_dropWhile]

theorem specSplitAux_all_ws (t : List Char) (hws : ∀ c ∈ t, jsWhitespace c) :
    specSplitAux t [] = [] := by
  have := specSplitAux_append_ws t hws [] []
  simpa using this

/-- `countWords` agrees everywhere with the spec-worded tokenizer. -/
theorem countWords_eq_spec (text : String) :
    countWords text = countWordsSpec text := by
  unfold countWords countWordsSpec
  by_cases h : text.toList.isEmpty || (jsTrimList text.toList).isEmpty
  · rw [if_pos h]
    rcases Bool.or_eq_true_iff.mp h with h1 | h1
    · have : text.toList = [] := List.isEmpty_iff.mp h1
      rw [this]
      rfl
    · -- trimmed text empty: the raw text is all whitespace
      have htrim : jsTrimList text.toList = [] := List.isEmpty_iff.mp h1
      have := specSplitAux_trim text.toList
      rw [htrim] at this
      simp only [specSplitAux] at this
      rw [← this]
      rfl
  · rw [if_neg h]
    unfold jsSplitWs
    rw [filter_jsSplitWsAux _ false _ (fun hx => absurd hx (by simp)),
      specSplitAux_trim]

/-! ## Session state (renderer `this.session`) -/

inductive GoalType
  | words
  | time
deriving DecidableEq

/-- The renderer's `this.session` object.  `timerInterval` and
`autoSaveInterval` are `setInterval` handles in the source; here a `Bool`
records whether the interval is installed.  `startTime` is an epoch value
in milliseconds (`null` before the first session, modelled as `0`, never
read while no timer is installed). -/
structure Session where
  active : Bool
  goalType : GoalType
  goalValue : Int
  strictMode : Bool
  startTime : Int
  startWordCount : Int
  currentWordCount : Int
  timerInterval : Bool
  autoSaveInterval : Bool
  elapsedSeconds : Int
  goalTriggered : Bool
  goalCompleted : Bool
deriving DecidableEq

/-- The constructor / `resetSession` literal. -/
def initialSession : Session :=
  { active := false
    goalType := GoalType.words
    goalValue := 500
    strictMode := true
    startTime := 0
    startWordCount := 0
    currentWordCount := 0
    timerInterval := false
    autoSaveInterval := false
    elapsedSeconds := 0
    goalTriggered := false
    goalCompleted := false }

/-- The synchronous state updates performed at the start of `goalReached()`
(before its first `await`): the session is no longer locked, the goal is
marked completed, and the autosave interval is cleared.  The tick interval
is deliberately kept ("keep timer for display if they continue"). -/
def goalReachedSession (s : Session) : Session :=
  { s with active := false, goalCompleted := true, autoSaveInterval := false }

/-- Renderer `tick()`: recompute `elapsedSeconds` from the absolute
wall-clock delta (`Math.floor((Date.now() - startTime) / 1000)`, which is
`Int.fdiv` here), then evaluate a time goal under the `goalTriggered`
latch.  The time-drift comparison in the source only feeds a `console.log`
and is therefore not represented in the state.  The returned `Bool` records
whether the goal-reached transition fired on this tick. -/
def tick (s : Session) (now : Int) : Session × Bool :=
  let s1 := { s with elapsedSeconds := (now - s.startTime).fdiv 1000 }
  if s1.goalType = GoalType.time ∧ s1.goalTriggered = false then
    if s1.goalValue * 60 ≤ s1.elapsedSeconds then
      (goalReachedSession { s1 with goalTriggered := true }, true)
    else (s1, false)
  else (s1, false)

/-- Renderer `handleEditorInput()`: recompute the word count of the editor
content, then evaluate a word goal under the `goalTriggered` latch.  The
returned `Bool` records whether the goal-reached transition fired. -/
def handleEditorInput (s : Session) (content : String) : Session × Bool :=
  let s1 := { s with currentWordCount := (countWords content : Int) }
  if s1.goalType = GoalType.words ∧ s1.goalTriggered = false then
    if s1.goalValue ≤ s1.currentWordCount - s1.startWordCount then
      (goalReachedSession { s1 with goalTriggered := true }, true)
    else (s1, false)
  else (s1, false)

/-- The two in-session event sources: an editor `input` event carrying the
new editor content, and a 1-second timer tick carrying the current
wall-clock time in milliseconds. -/
inductive SessionEvent
  | textChange (content : String)
  | timerTick (now : Int)

def stepEvent (s : Session) : SessionEvent → Session × Bool
  | SessionEvent.textChange c => handleEditorInput s c
  | SessionEvent.timerTick now => tick s now

/-- Run a list of in-session events, counting how many of them fired the
goal-reached transition. -/
def runEvents : Session → List SessionEvent → Session × Nat
  | s, [] => (s, 0)
  | s, e :: es =>
    ((runEvents (stepEvent s e).1 es).1,
      (if (stepEvent s e).2 then 1 else 0) + (runEvents (stepEvent s e).1 es).2)

/-! ### Step and run lemmas -/

theorem stepEvent_preserved (s : Session) (e : SessionEvent) :
    ((stepEvent s e).1.goalType = s.goalType)
    ∧ ((stepEvent s e).1.goalValue = s.goalValue)
    ∧ ((stepEvent s e).1.startWordCount = s.startWordCount)
    ∧ ((stepEvent s e).1.startTime = s.startTime)
    ∧ ((stepEvent s e).1.strictMode = s.strictMode) := by
  cases e <;>
    simp only [stepEvent, handleEditorInput, tick, goalReachedSession] <;>
    split <;> (try split) <;> simp

theorem stepEvent_triggered_eq (s : Session) (e : SessionEvent) :
    (stepEvent s e).1.goalTriggered = (s.goalTriggered || (stepEvent s e).2) := by
  cases e <;>
    simp only [stepEvent, handleEditorInput, tick, goalReachedSession] <;>
    split <;> (try split) <;>
    simp_all

theorem stepEvent_no_fire_of_triggered (s : Session) (e : SessionEvent)
    (h : s.goalTriggered = true) : (stepEvent s e).2 = false := by
  cases e <;>
    simp only [stepEvent, handleEditorInput, tick, goalReachedSession] <;>
    split <;> (try split) <;>
    simp_all

theorem stepEvent_autosave_off (s : Session) (e : SessionEvent)
    (h : s.autoSaveInterval = false) :
    (stepEvent s e).1.autoSaveInterval = false := by
  cases e <;>
    simp only [stepEvent, handleEditorInput, tick, goalReachedSession] <;>
    split <;> (try split) <;>
    simp_all

theorem handleEditorInput_fires (s : Session) (c : String)
    (hw : s.goalType = GoalType.words) (ht : s.goalTriggered = false)
    (hge : s.goalValue ≤ (countWords c : Int) - s.startWordCount) :
    (handleEditorInput s c).2 = true := by
  simp only [handleEditorInput]
  rw [if_pos ⟨hw, ht⟩, if_pos hge]

theorem tick_fires (s : Session) (now : Int)
    (hw : s.goalType = GoalType.time) (ht : s.goalTriggered = false)
    (hge : s.goalValue * 60 ≤ (now - s.startTime).fdiv 1000) :
    (tick s now).2 = true := by
  simp only [tick]
  rw [if_pos ⟨hw, ht⟩, if_pos hge]

theorem tick_no_fire_words (s : Session) (now : Int)
    (hw : s.goalType = GoalType.words) : (tick s now).2 = false := by
  simp only [tick]
  rw [if_neg]
  simp [hw]

theorem handleEditorInput_no_fire_time (s : Session) (c : String)
    (hw : s.goalType = GoalType.time) : (handleEditorInput s c).2 = false := by
  simp only [handleEditorInput]
  rw [if_neg]
  simp [hw]

theorem runEvents_triggered_zero (evs : List SessionEvent) :
    ∀ s : Session, s.goalTriggered = true → (runEvents s evs).2 = 0 := by
  induction evs with
  | nil => intro s _; rfl
  | cons e es ih =>
    intro s h
    have hf : (stepEvent s e).2 = false := stepEvent_no_fire_of_triggered s e h
    have ht : (stepEvent s e).1.goalTriggered = true := by
      rw [stepEvent_triggered_eq, h]; rfl
    simp [runEvents, hf, ih _ ht]

theorem runEvents_le_one (evs : List SessionEvent) :
    ∀ s : Session, (runEvents s evs).2 ≤ 1 := by
  induction evs with
  | nil => intro s; simp [runEvents]
  | cons e es ih =>
    intro s
    by_cases hf : (stepEvent s e).2 = true
    · have ht : (stepEvent s e).1.goalTriggered = true := by
        rw [stepEvent_triggered_eq, hf]; simp
      simp [runEvents, hf, runEvents_triggered_zero es _ ht]
    · simp only [Bool.not_eq_true] at hf
      simp only [runEvents, hf, if_neg Bool.false_ne_true, Nat.zero_add]
      exact ih _

theorem runEvents_word_fire (evs : List SessionEvent) :
    ∀ s : Session, s.goalType = GoalType.words → s.goalTriggered = false →
    (∃ c, SessionEvent.textChange c ∈ evs ∧
      s.goalValue ≤ (countWords c : Int) - s.startWordCount) →
    (runEvents s evs).2 = 1 := by
  induction evs with
  | nil =>
    intro s _ _ hex
    rcases hex with ⟨c, hc, _⟩
    exact absurd hc (List.not_mem_nil _)
  | cons e es ih =>
    intro s hw ht hex
    rcases hex with ⟨c, hc, hge⟩
    by_cases hf : (stepEvent s e).2 = true
    · have htr : (stepEvent s e).1.goalTriggered = true := by
        rw [stepEvent_triggered_eq, hf]; simp
      simp [runEvents, hf, runEvents_triggered_zero es _ htr]
    · simp only [Bool.not_eq_true] at hf
      have hpres := stepEvent_preserved s e
      have htr : (stepEvent s e).1.goalTriggered = false := by
        rw [stepEvent_triggered_eq, ht, hf]; rfl
      rcases List.mem_cons.mp hc with heq | hmem
      · -- the achieving event is the head: it must have fired
        exfalso
        have : (stepEvent s e).2 = true := by
          rw [← heq]
          exact handleEditorInput_fires s c hw ht hge
        rw [this] at hf
        exact absurd hf (by simp)
      · have := ih (stepEvent s e).1 (hpres.1.trans hw) htr
          ⟨c, hmem, by rw [hpres.2.1, hpres.2.2.1]; exact hge⟩
        simp [runEvents, hf, this]

theorem runEvents_time_fire (evs : List SessionEvent) :
    ∀ s : Session, s.goalType = GoalType.time → s.goalTriggered = false →
    (∃ now, SessionEvent.timerTick now ∈ evs ∧
      s.goalValue * 60 ≤ (now - s.startTime).fdiv 1000) →
    (runEvents s evs).2 = 1 := by
  induction evs with
  | nil =>
    intro s _ _ hex
    rcases hex with ⟨c, hc, _⟩
    exact absurd hc (List.not_mem_nil _)
  | cons e es ih =>
    intro s hw ht hex
    rcases hex with ⟨now, hc, hge⟩
    by_cases hf : (stepEvent s e).2 = true
    · have htr : (stepEvent s e).1.goalTriggered = true := by
        rw [stepEvent_triggered_eq, hf]; simp
      simp [runEvents, hf, runEvents_triggered_zero es _ htr]
    · simp only [Bool.not_eq_true] at hf
      have hpres := stepEvent_preserved s e
      have htr : (stepEvent s e).1.goalTriggered = false := by
        rw [stepEvent_triggered_eq, ht, hf]; rfl
      rcases List.mem_cons.mp hc with heq | hmem
      · exfalso
        have : (stepEvent s e).2 = true := by
          rw [← heq]
          exact tick_fires s now hw ht hge
        rw [this] at hf
        exact absurd hf (by simp)
      · have := ih (stepEvent s e).1 (hpres.1.trans hw) htr
          ⟨now, hmem, by rw [hpres.2.1, hpres.2.2.2.1]; exact hge⟩
        simp [runEvents, hf, this]

theorem runEvents_autosave_off (evs : List SessionEvent) :
    ∀ s : Session, s.autoSaveInterval = false →
    ((runEvents s evs).1).autoSaveInterval = false := by
  induction evs with
  | nil => intro s h; exact h
  | cons e es ih =>
    intro s h
    simp only [runEvents]
    exact ih _ (stepEvent_autosave_off s e h)

/-! ## Goal validation (renderer `startSession`) -/

/-- JavaScript `parseInt(str)` (radix 10): skip leading whitespace, read an
optional sign and then the longest decimal-digit prefix; `NaN` (here
`none`) when no digit is found.  Trailing non-digit characters are
ignored. -/
def jsParseInt (str : String) : Option Int :=
  let l := str.toList.dropWhile jsWhitespace
  let signed : Int × List Char :=
    match l with
    | '-' :: rest => (-1, rest)
    | '+' :: rest => (1, rest)
    | _ => (1, l)
  let digits := signed.2.takeWhile Char.isDigit
  if digits.isEmpty then none
  else some (signed.1 *
    (digits.foldl (fun acc c => 10 * acc + (c.toNat - '0'.toNat)) 0 : Nat))

/-- The validation constants of `startSession`. -/
def MIN_WORDS : Int := 10
def MAX_WORDS : Int := 50000
def MIN_MINUTES : Int := 1
def MAX_MINUTES : Int := 480

/-- The user-visible validation messages.  Each constructor carries the
bound named by the corresponding `showValidationError` string
("Word goal must be at least 10 words", "Word goal cannot exceed 50,000
words", "Time goal must be at least 1 minute", "Time goal cannot exceed
480 minutes (8 hours)"). -/
inductive ValidationError
  | wordGoalBelowMin (min : Int)
  | wordGoalAboveMax (max : Int)
  | timeGoalBelowMin (min : Int)
  | timeGoalAboveMax (max : Int)
deriving DecidableEq

/-- The session-field assignments `startSession` performs once validation
has passed: adopt the goal value and strict-mode toggle, load the draft
into the editor and snapshot its word count, record the start time, zero
the elapsed counter, mark the session active, and install the 1 s tick and
10 s autosave intervals. -/
def beginSession (s : Session) (goalValue : Int) (strictChecked : Bool)
    (currentDraft : String) (now : Int) : Session :=
  { s with
    goalValue := goalValue
    strictMode := strictChecked
    startWordCount := (countWords currentDraft : Int)
    currentWordCount := (countWords currentDraft : Int)
    startTime := now
    elapsedSeconds := 0
    active := true
    timerInterval := true
    autoSaveInterval := true }

/-- Result of the renderer `startSession()` call: the session object after
the call together with the validation error surfaced, if any.  On a
validation failure the source returns before touching any session field,
so the session is handed back unchanged. -/
structure StartResult where
  session : Session
  error : Option ValidationError
deriving DecidableEq

/-- Renderer `startSession()`: validate the relevant goal input with
`parseInt` against the `[MIN, MAX]` bounds (a `NaN` falls into the same
branch as a below-minimum value), rejecting without mutating the session;
on success perform the session-start assignments. -/
def startSession (s : Session) (wordGoalValue timeGoalValue : String)
    (strictChecked : Bool) (currentDraft : String) (now : Int) : StartResult :=
  if s.goalType = GoalType.words then
    match jsParseInt wordGoalValue with
    | none =>
      { session := s, error := some (ValidationError.wordGoalBelowMin MIN_WORDS) }
    | some rawValue =>
      if rawValue < MIN_WORDS then
        { session := s, error := some (ValidationError.wordGoalBelowMin MIN_WORDS) }
      else if MAX_WORDS < rawValue then
        { session := s, error := some (ValidationError.wordGoalAboveMax MAX_WORDS) }
      else
        { session := beginSession s rawValue strictChecked currentDraft now
          error := none }
  else
    match jsParseInt timeGoalValue with
    | none =>
      { session := s, error := some (ValidationError.timeGoalBelowMin MIN_MINUTES) }
    | some rawValue =>
      if rawValue < MIN_MINUTES then
        { session := s, error := some (ValidationError.timeGoalBelowMin MIN_MINUTES) }
      else if MAX_MINUTES < rawValue then
        { session := s, error := some (ValidationError.timeGoalAboveMax MAX_MINUTES) }
      else
        { session := beginSession s rawValue strictChecked currentDraft now
          error := none }

/-! ## Main-process state and IPC handlers -/

/-- The `{goalType, goalValue, strictMode}` payload of the `start-session`
IPC call. -/
structure SessionConfig where
  goalType : GoalType
  goalValue : Int
  strictMode : Bool
deriving DecidableEq

/-- Main-process module state: the `isSessionActive` flag consulted by the
window `close` handler, the window lockdown attributes, and the stored
`sessionConfig`. -/
structure MainState where
  isSessionActive : Bool
  kiosk : Bool
  fullScreen : Bool
  alwaysOnTop : Bool
  sessionConfig : Option SessionConfig
deriving DecidableEq

/-- Main-process state at application boot. -/
def bootMain : MainState :=
  { isSessionActive := false
    kiosk := false
    fullScreen := false
    alwaysOnTop := false
    sessionConfig := none }

/-- `enterLockdown()`: mark the session active and engage the kiosk /
fullscreen / always-on-top window lockdown. -/
def enterLockdown (m : MainState) : MainState :=
  { m with isSessionActive := true, kiosk := true, fullScreen := true,
           alwaysOnTop := true }

/-- `exitLockdown()`: clear the active flag and release every lockdown
attribute. -/
def exitLockdown (m : MainState) : MainState :=
  { m with isSessionActive := false, kiosk := false, fullScreen := false,
           alwaysOnTop := false }

/-- `showCompletion()`: identical window effects to `exitLockdown` —
the goal is reached, the user is free. -/
def showCompletion (m : MainState) : MainState :=
  { m with isSessionActive := false, kiosk := false, fullScreen := false,
           alwaysOnTop := false }

/-- IPC `start-session`: store the config; engage lockdown iff strict mode,
otherwise only mark the session active and enter fullscreen. -/
def ipcStartSession (m : MainState) (config : SessionConfig) : MainState :=
  let m1 := { m with sessionConfig := some config }
  if config.strictMode ≠ false then enterLockdown m1
  else { m1 with isSessionActive := true, fullScreen := true }

/-- IPC `goal-reached`: release the lockdown via `showCompletion` when the
stored config is strict, otherwise just clear the active flag. -/
def ipcGoalReached (m : MainState) : MainState :=
  match m.sessionConfig with
  | some cfg =>
    if cfg.strictMode ≠ false then showCompletion m
    else { m with isSessionActive := false }
  | none => { m with isSessionActive := false }

/-- The window `close` event handler: when `isSessionActive` the close is
`preventDefault`-ed and a `show-exit-warning` message (which the renderer
answers by opening the emergency-exit modal) is sent instead. -/
structure CloseResult where
  prevented : Bool
  exitWarningSent : Bool
deriving DecidableEq

def closeEvent (m : MainState) : CloseResult :=
  if m.isSessionActive then { prevented := true, exitWarningSent := true }
  else { prevented := false, exitWarningSent := false }

/-! ## Persistence gateway -/

/-- A draft archived under `drafts/<timestamp>.txt`: the header fields
(date, word count, session duration) followed by the content. -/
structure ArchiveEntry where
  date : String
  words : Int
  duration : String
  content : String
deriving DecidableEq

/-- One record of `sessions.json`.  The `Option` fields reproduce the
JavaScript `|| null` fall-backs on falsy values. -/
structure HistoryEntry where
  date : String
  words : Int
  duration : Option String
  goalType : Option GoalType
  goalValue : Option Int
  completed : Bool
deriving DecidableEq

/-- The persistence layer: the live draft file `current.txt` (absent
before the first save), the archive directory, and the session history. -/
structure Persist where
  draft : Option String
  archives : List ArchiveEntry
  history : List HistoryEntry
deriving DecidableEq

/-- The `stats` payload the renderer attaches to `end-session`. -/
structure Stats where
  words : Int
  duration : String
  goalType : GoalType
  goalValue : Int
  completed : Bool
deriving DecidableEq

/-- `saveContent`: overwrite the live draft. -/
def persistSaveContent (p : Persist) (content : String) : Persist :=
  { p with draft := some content }

/-- `logSession`: append one history record.  `stats.words || 0` and
`stats.completed || false` are the identity on `Int` and `Bool` values;
`duration || null` and `goalValue || null` map the falsy values `""` and
`0` to `null`; the goal-type strings `"words"`/`"time"` are never falsy. -/
def logSession (p : Persist) (stats : Stats) (date : String) : Persist :=
  { p with history := p.history ++
      [{ date := date
         words := stats.words
         duration := if stats.duration = "" then none else some stats.duration
         goalType := some stats.goalType
         goalValue := if stats.goalValue = 0 then none else some stats.goalValue
         completed := stats.completed }] }

/-- `archiveDraft`: write a timestamped copy headed by date, word count
and duration (`stats?.words || 0` is the identity on `Int`;
`stats?.duration || 'N/A'` replaces an empty duration), then append the
history record via `logSession`. -/
def archiveDraft (p : Persist) (content : String) (stats : Stats)
    (date : String) : Persist :=
  let p1 := { p with archives := p.archives ++
      [{ date := date
         words := stats.words
         duration := if stats.duration = "" then "N/A" else stats.duration
         content := content }] }
  logSession p1 stats date

/-- IPC `end-session`: save and archive the final content — but only when
the content string is truthy, i.e. non-empty — then release the lockdown
(strict) or merely leave fullscreen (non-strict) and drop the stored
config. -/
def ipcEndSession (p : Persist) (m : MainState) (content : String)
    (stats : Stats) (date : String) : Persist × MainState :=
  let p1 := if content ≠ "" then
      archiveDraft (persistSaveContent p content) content stats date
    else p
  let m1 := match m.sessionConfig with
    | some cfg =>
      if cfg.strictMode ≠ false then exitLockdown m
      else { m with isSessionActive := false, fullScreen := false }
    | none => { m with isSessionActive := false, fullScreen := false }
  (p1, { m1 with sessionConfig := none })

/-- IPC `emergency-exit`: save the content when truthy (no archive, no
history record), then the same lockdown release and config reset as
`end-session`. -/
def ipcEmergencyExit (p : Persist) (m : MainState) (content : String) :
    Persist × MainState :=
  let p1 := if content ≠ "" then persistSaveContent p content else p
  let m1 := match m.sessionConfig with
    | some cfg =>
      if cfg.strictMode ≠ false then exitLockdown m
      else { m with isSessionActive := false, fullScreen := false }
    | none => { m with isSessionActive := false, fullScreen := false }
  (p1, { m1 with sessionConfig := none })

/-! ## Renderer exit paths and completion -/

/-- `padStart(2, '0')` on the decimal rendering of a two-digit quantity. -/
def pad2 (n : Nat) : String :=
  if n < 10 then "0" ++ toString n else toString n

/-- Renderer `formatTime(seconds)`: `h:mm:ss` when at least an hour has
elapsed, `mm:ss` otherwise.  The argument is always a non-negative elapsed
count in this code base; `Int.toNat` makes that explicit. -/
def formatTime (seconds : Int) : String :=
  let s := seconds.toNat
  let hrs := s / 3600
  let mins := s % 3600 / 60
  let secs := s % 60
  if 0 < hrs then
    toString hrs ++ ":" ++ pad2 mins ++ ":" ++ pad2 secs
  else
    pad2 mins ++ ":" ++ pad2 secs

/-- Combined renderer + main-process outcome of an exit path. -/
structure ExitResult where
  session : Session
  persist : Persist
  main : MainState
deriving DecidableEq

/-- Renderer `saveAndExit()`: send `end-session` with the current editor
content and the session stats — in particular `completed` is the current
value of the `goalTriggered` latch — then reset the session to the
constructor literal. -/
def saveAndExit (s : Session) (content : String) (p : Persist)
    (m : MainState) (date : String) : ExitResult :=
  let stats : Stats :=
    { words := s.currentWordCount - s.startWordCount
      duration := formatTime s.elapsedSeconds
      goalType := s.goalType
      goalValue := s.goalValue
      completed := s.goalTriggered }
  let pm := ipcEndSession p m content stats date
  { session := initialSession, persist := pm.1, main := pm.2 }

/-- JavaScript `String.prototype.toUpperCase` (character-wise; the phrase
comparison only involves ASCII). -/
def jsToUpper (s : String) : String :=
  String.mk (s.toList.map Char.toUpper)

/-- Renderer `checkEmergencyPhrase()`: the emergency input, uppercased and
trimmed, equals the fixed phrase. -/
def checkEmergencyPhrase (input : String) : Bool :=
  jsTrimStr (jsToUpper input) = "I GIVE UP"

/-- Renderer `emergencyExit()`: stop both timers, send `emergency-exit`
with the editor content, reset the session to the constructor literal. -/
def emergencyExit (_s : Session) (content : String) (p : Persist)
    (m : MainState) : ExitResult :=
  let pm := ipcEmergencyExit p m content
  { session := initialSession, persist := pm.1, main := pm.2 }

/-- Renderer `autoSave()` save decision: the guard
`if (!active && !goalCompleted) return;` skips the save only when the
session is neither active nor goal-completed. -/
def autoSaveStep (s : Session) (content : String) : Option String :=
  if s.active = false ∧ s.goalCompleted = false then none else some content

/-- Outcome of the full `goalReached()` routine. -/
structure GoalReachedResult where
  session : Session
  savedContent : Option String
  main : MainState
deriving DecidableEq

/-- Renderer `goalReached()` together with the IPC `goal-reached` handler:
apply the synchronous session updates (unlock, mark completed, clear the
autosave interval), perform the one final `autoSave()`, and ask the main
process to release the lockdown. -/
def goalReached (s : Session) (content : String) (m : MainState) :
    GoalReachedResult :=
  let s1 := goalReachedSession s
  { session := s1
    savedContent := autoSaveStep s1 content
    main := ipcGoalReached m }

/-- `Math.ceil(v * 1.2)` for the word-goal increase.  For every integer
`v` with `0 ≤ v` in the goal range the double-precision product
`v * 1.2` differs from the rational `6v/5` by far less than the distance
to the next integer bound (the float `1.2` is below the rational `1.2` by
about `4.4e-17`, so the product never lands on or above the next integer),
hence the ceiling of the float product is exactly `⌈6v/5⌉`, which for
`0 ≤ v` is `(6v + 4) / 5` in truncating integer division. -/
def ceilTimesOnePointTwo (v : Int) : Int :=
  (6 * v + 4) / 5

/-- Outcome of `keepWriting()`.  The source body clears both intervals,
bumps the goal, resets the two goal flags, reactivates the session and
reinstalls both intervals; it contains no IPC call at all, in particular
no `start-session`/lockdown request — recorded here as
`reengageLockdownRequested := false`. -/
structure KeepWritingResult where
  session : Session
  reengageLockdownRequested : Bool
deriving DecidableEq

/-- Renderer `keepWriting()`. -/
def keepWriting (s : Session) : KeepWritingResult :=
  let s1 := { s with timerInterval := false, autoSaveInterval := false }
  let s2 :=
    if s1.goalType = GoalType.time then { s1 with goalValue := s1.goalValue + 10 }
    else { s1 with goalValue := ceilTimesOnePointTwo s1.goalValue }
  let s3 := { s2 with goalTriggered := false, goalCompleted := false,
                      active := true }
  { session := { s3 with timerInterval := true, autoSaveInterval := true }
    reengageLockdownRequested := false }

/-! ### Further helper lemmas -/

theorem formatTime_ne_empty (n : Int) : formatTime n ≠ "" := by
  intro h
  unfold formatTime at h
  have h1 : (":" : String).length = 1 := rfl
  have h0 : ("" : String).length = 0 := rfl
  by_cases hc : 0 < n.toNat / 3600 <;>
    simp only [hc, if_true, if_false, reduceIte] at h <;>
  · have hl := congrArg String.length h
    simp only [String.length_append, h1, h0] at hl
    omega

theorem tick_elapsed (s : Session) (n : Int) :
    (tick s n).1.elapsedSeconds = (n - s.startTime).fdiv 1000 := by
  simp only [tick, goalReachedSession]
  split
  · split <;> rfl
  · rfl

theorem keepWriting_session_fields (s : Session) :
    ((keepWriting s).session.goalType = s.goalType)
    ∧ ((keepWriting s).session.goalTriggered = false)
    ∧ ((keepWriting s).session.goalCompleted = false)
    ∧ ((keepWriting s).session.active = true)
    ∧ ((keepWriting s).session.timerInterval = true)
    ∧ ((keepWriting s).session.autoSaveInterval = true)
    ∧ ((keepWriting s).session.startWordCount = s.startWordCount)
    ∧ ((keepWriting s).session.startTime = s.startTime)
    ∧ ((keepWriting s).reengageLockdownRequested = false) := by
  simp only [keepWriting]
  split <;> simp

/-! ## Concrete values used in witnesses and counterexamples -/

/-- Ten words of editor content. -/
def tenWords : String := "a b c d e f g h i j"

/-- 120 words of editor content. -/
def manyWords : String := String.intercalate " " (List.replicate 120 "a")

/-- A freshly started strict word-goal session with goal 10 and an empty
draft, produced by the real `startSession` path. -/
def demoWordSession : Session :=
  (startSession { initialSession with goalType := GoalType.words }
    "10" "25" true "" 0).session

/-- A freshly started strict time-goal session with goal 1 minute,
produced by the real `startSession` path. -/
def demoTimeSession : Session :=
  (startSession { initialSession with goalType := GoalType.time }
    "500" "1" true "" 0).session

/-- A strict word-goal (100 words) session sitting in the GoalReached
phase: the latch is set, the session is unlocked and marked completed, the
autosave interval is cleared while the tick interval still runs. -/
def demoGoalReachedWord : Session :=
  { initialSession with
    goalType := GoalType.words
    goalValue := 100
    strictMode := true
    currentWordCount := 100
    timerInterval := true
    elapsedSeconds := 300
    goalTriggered := true
    goalCompleted := true }

/-- A time-goal session in the GoalReached phase with an empty editor. -/
def demoTimeDoneSession : Session :=
  { initialSession with
    goalType := GoalType.time
    goalValue := 1
    strictMode := true
    timerInterval := true
    elapsedSeconds := 60
    goalTriggered := true
    goalCompleted := true }

/-- An empty persistence layer. -/
def emptyPersist : Persist := { draft := none, archives := [], history := [] }

/-- A persistence layer holding a previously saved draft. -/
def oldDraftPersist : Persist :=
  { draft := some "old text", archives := [], history := [] }

/-! ## Claims -/

/-- **C9.** For every string, `countWords` splits on runs of whitespace and
discards empty tokens — it agrees with the spec-worded tokenizer
`countWordsSpec` on every input — so the empty string and whitespace-only
strings count as 0 words, and `countWords "a b\tc\n\nd" = 4`. -/
theorem c9_count_words :
    countWords "" = 0
    ∧ countWords "   " = 0
    ∧ countWords "a b\tc\n\nd" = 4
    ∧ ∀ text : String, countWords text = countWordsSpec text :=
  ⟨rfl, by decide, by decide, countWords_eq_spec⟩

/-- **C1.** For a freshly started session with a valid word goal
`g ∈ [10, 50000]`, any sequence of editor-input and tick events fires the
goal-reached transition at most once — and exactly once as soon as some
editor input reaches `g` new words — even if the word count later dips
below the threshold and rises again; the analogous exactly-once statement
holds for time goals on ticks; ticks never fire a word goal and editor
input never fires a time goal; and once the `goalTriggered` latch is set
no event fires the transition again. -/
theorem c1_goal_latch (g w0 : Int) (s0 : Session)
    (hg1 : MIN_WORDS ≤ g) (hg2 : g ≤ MAX_WORDS)
    (h0 : s0.goalType = GoalType.words) (h1 : s0.goalValue = g)
    (h2 : s0.goalTriggered = false) (h3 : s0.startWordCount = w0) :
    (∀ (s : Session) (evs : List SessionEvent), (runEvents s evs).2 ≤ 1)
    ∧ (∀ evs : List SessionEvent,
        (∃ c, SessionEvent.textChange c ∈ evs ∧
          g ≤ (countWords c : Int) - w0) →
        (runEvents s0 evs).2 = 1)
    ∧ (∀ (s : Session) (evs : List SessionEvent),
        s.goalType = GoalType.time → s.goalTriggered = false →
        (∃ now, SessionEvent.timerTick now ∈ evs ∧
          s.goalValue * 60 ≤ (now - s.startTime).fdiv 1000) →
        (runEvents s evs).2 = 1)
    ∧ (∀ (s : Session) (now : Int), s.goalType = GoalType.words →
        (tick s now).2 = false)
    ∧ (∀ (s : Session) (c : String), s.goalType = GoalType.time →
        (handleEditorInput s c).2 = false)
    ∧ (∀ (s : Session) (e : SessionEvent), s.goalTriggered = true →
        (stepEvent s e).2 = false) := by
  refine ⟨fun s evs => runEvents_le_one evs s, ?_,
    fun s evs hw ht hex => runEvents_time_fire evs s hw ht hex,
    fun s now hw => tick_no_fire_words s now hw,
    fun s c hw => handleEditorInput_no_fire_time s c hw,
    fun s e ht => stepEvent_no_fire_of_triggered s e ht⟩
  intro evs hex
  apply runEvents_word_fire evs s0 h0 h2
  rcases hex with ⟨c, hc, hge⟩
  exact ⟨c, hc, by rw [h1, h3]; exact hge⟩

theorem c1_goal_latch_witness :
    MIN_WORDS ≤ (10 : Int) ∧
    (runEvents demoWordSession [SessionEvent.textChange tenWords]).2 = 1 :=
  ⟨by decide,
    (c1_goal_latch 10 0 demoWordSession (by decide) (by decide) (by decide)
      (by decide) (by decide) (by decide)).2.1
      [SessionEvent.textChange tenWords]
      ⟨tenWords, List.mem_singleton.mpr rfl, by decide⟩⟩

/-- **C2.** Every tick recomputes `elapsedSeconds` as
`⌊(now − startTime) / 1000⌋` from the absolute wall-clock delta — the
result of a tick does not depend at all on the previously recorded
`elapsedSeconds`, so a suspension gap (whose 5-second drift check only
feeds a log statement) is simply adopted — and for a valid time goal
`m ∈ [1, 480]` a tick whose recomputed value reaches `m × 60` fires the
goal-reached transition in that single tick, with no further fire on any
later tick. -/
theorem c2_tick_wall_clock (m : Int) (s : Session) (now : Int)
    (hm1 : MIN_MINUTES ≤ m) (hm2 : m ≤ MAX_MINUTES)
    (h0 : s.goalType = GoalType.time) (h1 : s.goalValue = m)
    (h2 : s.goalTriggered = false) :
    (∀ (s2 : Session) (n : Int),
      (tick s2 n).1.elapsedSeconds = (n - s2.startTime).fdiv 1000)
    ∧ (∀ (s2 : Session) (n e1 e2 : Int),
        tick { s2 with elapsedSeconds := e1 } n
          = tick { s2 with elapsedSeconds := e2 } n)
    ∧ (m * 60 ≤ (now - s.startTime).fdiv 1000 →
        (tick s now).2 = true
        ∧ (tick s now).1.goalTriggered = true
        ∧ ∀ n2 : Int, (tick (tick s now).1 n2).2 = false) := by
  refine ⟨fun s2 n => tick_elapsed s2 n, fun s2 n e1 e2 => rfl, fun hge => ?_⟩
  have hfire : (tick s now).2 = true :=
    tick_fires s now h0 h2 (by rw [h1]; exact hge)
  have htr : (tick s now).1.goalTriggered = true := by
    have := stepEvent_triggered_eq s (SessionEvent.timerTick now)
    simp only [stepEvent] at this
    rw [this, hfire, h2]
    rfl
  exact ⟨hfire, htr, fun n2 =>
    stepEvent_no_fire_of_triggered (tick s now).1 (SessionEvent.timerTick n2) htr⟩

theorem c2_tick_wall_clock_witness :
    (tick demoTimeSession 160000).2 = true
    ∧ (tick (tick demoTimeSession 160000).1 161000).2 = false := by
  have h := (c2_tick_wall_clock 1 demoTimeSession 160000 (by decide) (by decide)
    (by decide) (by decide) (by decide)).2.2 (by decide)
  exact ⟨h.1, h.2.2 161000⟩

theorem startSession_words_eq (s : Session) (w t : String) (sc : Bool)
    (d : String) (now : Int) (hgt : s.goalType = GoalType.words) :
    startSession s w t sc d now =
      match jsParseInt w with
      | none =>
        { session := s, error := some (ValidationError.wordGoalBelowMin MIN_WORDS) }
      | some v =>
        if v < MIN_WORDS then
          { session := s, error := some (ValidationError.wordGoalBelowMin MIN_WORDS) }
        else if MAX_WORDS < v then
          { session := s, error := some (ValidationError.wordGoalAboveMax MAX_WORDS) }
        else { session := beginSession s v sc d now, error := none } := by
  simp [startSession, hgt]

theorem startSession_time_eq (s : Session) (w t : String) (sc : Bool)
    (d : String) (now : Int) (hgt : s.goalType = GoalType.time) :
    startSession s w t sc d now =
      match jsParseInt t with
      | none =>
        { session := s, error := some (ValidationError.timeGoalBelowMin MIN_MINUTES) }
      | some v =>
        if v < MIN_MINUTES then
          { session := s, error := some (ValidationError.timeGoalBelowMin MIN_MINUTES) }
        else if MAX_MINUTES < v then
          { session := s, error := some (ValidationError.timeGoalAboveMax MAX_MINUTES) }
        else { session := beginSession s v sc d now, error := none } := by
  simp [startSession, hgt]

/-- **C3.** `startSession` accepts a word goal iff `parseInt` yields an
integer in `[10, 50000]` and a time goal iff it yields an integer in
`[1, 480]`; non-numeric or missing input (a `parseInt` NaN) is rejected
through the same below-minimum branch as an out-of-bounds value with the
error naming the violated bound; on any rejection the session object is
returned untouched (no field mutated, the state remains Idle), while on
acceptance the session starts. -/
theorem c3_start_validation (s : Session) (w t : String) (sc : Bool)
    (d : String) (now : Int) :
    (s.goalType = GoalType.words →
      (((startSession s w t sc d now).error = none) ↔
        ∃ v, jsParseInt w = some v ∧ MIN_WORDS ≤ v ∧ v ≤ MAX_WORDS))
    ∧ (s.goalType = GoalType.time →
      (((startSession s w t sc d now).error = none) ↔
        ∃ v, jsParseInt t = some v ∧ MIN_MINUTES ≤ v ∧ v ≤ MAX_MINUTES))
    ∧ (∀ e, (startSession s w t sc d now).error = some e →
        (startSession s w t sc d now).session = s)
    ∧ (s.goalType = GoalType.words →
        (jsParseInt w = none ∨ ∃ v, jsParseInt w = some v ∧ v < MIN_WORDS) →
        (startSession s w t sc d now).error
          = some (ValidationError.wordGoalBelowMin MIN_WORDS))
    ∧ (s.goalType = GoalType.words →
        (∃ v, jsParseInt w = some v ∧ MAX_WORDS < v) →
        (startSession s w t sc d now).error
          = some (ValidationError.wordGoalAboveMax MAX_WORDS))
    ∧ (s.goalType = GoalType.time →
        (jsParseInt t = none ∨ ∃ v, jsParseInt t = some v ∧ v < MIN_MINUTES) →
        (startSession s w t sc d now).error
          = some (ValidationError.timeGoalBelowMin MIN_MINUTES))
    ∧ (s.goalType = GoalType.time →
        (∃ v, jsParseInt t = some v ∧ MAX_MINUTES < v) →
        (startSession s w t sc d now).error
          = some (ValidationError.timeGoalAboveMax MAX_MINUTES))
    ∧ ((startSession s w t sc d now).error = none →
        (startSession s w t sc d now).session.active = true
        ∧ (startSession s w t sc d now).session.strictMode = sc) := by
  refine ⟨?_, ?_, ?_, ?_, ?_, ?_, ?_, ?_⟩
  · intro hgt
    rw [startSession_words_eq s w t sc d now hgt]
    cases hp : jsParseInt w with
    | none => simp
    | some v =>
      dsimp only
      split_ifs with h1 h2 <;> simp_all
  · intro hgt
    rw [startSession_time_eq s w t sc d now hgt]
    cases hp : jsParseInt t with
    | none => simp
    | some v =>
      dsimp only
      split_ifs with h1 h2 <;> simp_all
  · cases hgt : s.goalType with
    | words =>
      rw [startSession_words_eq s w t sc d now hgt]
      cases hp : jsParseInt w with
      | none => intro e _; rfl
      | some v => dsimp only; split_ifs <;> intro e he <;> simp_all
    | time =>
      rw [startSession_time_eq s w t sc d now hgt]
      cases hp : jsParseInt t with
      | none => intro e _; rfl
      | some v => dsimp only; split_ifs <;> intro e he <;> simp_all
  · intro hgt hfail
    rw [startSession_words_eq s w t sc d now hgt]
    cases hp : jsParseInt w with
    | none => rfl
    | some v =>
      rcases hfail with hnone | ⟨v2, hv2, hb⟩
      · rw [hp] at hnone; exact absurd hnone (by simp)
      · rw [hp] at hv2
        injection hv2 with hv2
        subst hv2
        dsimp only
        split_ifs <;> simp_all
  · intro hgt hfail
    rw [startSession_words_eq s w t sc d now hgt]
    rcases hfail with ⟨v2, hv2, hb⟩
    rw [hv2]
    dsimp only
    split_ifs <;> simp_all [MIN_WORDS, MAX_WORDS] <;> omega
  · intro hgt hfail
    rw [startSession_time_eq s w t sc d now hgt]
    cases hp : jsParseInt t with
    | none => rfl
    | some v =>
      rcases hfail with hnone | ⟨v2, hv2, hb⟩
      · rw [hp] at hnone; exact absurd hnone (by simp)
      · rw [hp] at hv2
        injection hv2 with hv2
        subst hv2
        dsimp only
        split_ifs <;> simp_all
  · intro hgt hfail
    rw [startSession_time_eq s w t sc d now hgt]
    rcases hfail with ⟨v2, hv2, hb⟩
    rw [hv2]
    dsimp only
    split_ifs <;> simp_all [MIN_MINUTES, MAX_MINUTES] <;> omega
  · intro hok
    cases hgt : s.goalType with
    | words =>
      rw [startSession_words_eq s w t sc d now hgt] at hok ⊢
      cases hp : jsParseInt w with
      | none => rw [hp] at hok; exact absurd hok (by simp)
      | some v =>
        dsimp only at hok ⊢
        split_ifs at hok ⊢ <;> simp_all [beginSession]
    | time =>
      rw [startSession_time_eq s w t sc d now hgt] at hok ⊢
      cases hp : jsParseInt t with
      | none => rw [hp] at hok; exact absurd hok (by simp)
      | some v =>
        dsimp only at hok ⊢
        split_ifs at hok ⊢ <;> simp_all [beginSession]

theorem c3_start_validation_witness :
    ((startSession { initialSession with goalType := GoalType.words }
        "500" "25" true "" 0).error = none)
    ∧ ((startSession { initialSession with goalType := GoalType.words }
        "abc" "25" true "" 0).error
        = some (ValidationError.wordGoalBelowMin MIN_WORDS))
    ∧ ((startSession { initialSession with goalType := GoalType.words }
        "abc" "25" true "" 0).session
        = { initialSession with goalType := GoalType.words })
    ∧ ((startSession { initialSession with goalType := GoalType.time }
        "500" "481" true "" 0).error
        = some (ValidationError.timeGoalAboveMax MAX_MINUTES)) := by
  have h1 := c3_start_validation { initialSession with goalType := GoalType.words }
    "500" "25" true "" 0
  have h2 := c3_start_validation { initialSession with goalType := GoalType.words }
    "abc" "25" true "" 0
  have h3 := c3_start_validation { initialSession with goalType := GoalType.time }
    "500" "481" true "" 0
  refine ⟨(h1.1 rfl).mpr ⟨500, by decide, by decide, by decide⟩,
    h2.2.2.2.1 rfl (Or.inl (by decide)), ?_,
    h3.2.2.2.2.2.2.1 rfl ⟨481, by decide, by decide⟩⟩
  exact h2.2.2.1 (ValidationError.wordGoalBelowMin MIN_WORDS)
    (h2.2.2.2.1 rfl (Or.inl (by decide)))

/-- `stats` payload used in witnesses. -/
def demoStats : Stats :=
  { words := 100, duration := "05:00", goalType := GoalType.words,
    goalValue := 100, completed := true }

/-- **C4 counterexample.** The claim "keep-writing requests lockdown
re-engage iff strictMode" is false on the code: `keepWriting()` contains no
lockdown/IPC call at all, so for a strict-mode GoalReached session the
requested re-engage never happens. -/
theorem c4_keep_writing_counterexample :
    ¬ (((keepWriting demoGoalReachedWord).reengageLockdownRequested = true)
        ↔ demoGoalReachedWord.strictMode = true) := by decide

/-- **C4 (amended).** For every session in GoalReached, keep-writing
increases the goal by exactly +10 minutes for a time goal and to
`⌈goalValue × 1.2⌉` for a word goal (100 → 120, 25 minutes → 35), clears
`goalTriggered` and `goalCompleted` so a subsequent crossing of the new
threshold fires GoalReached again exactly once, reactivates the session
and resumes the tick and autosave timers — but it does **not** request a
lockdown re-engage (the source makes no lockdown call), even when
`strictMode` is set. -/
theorem c4_keep_writing (s : Session) :
    (s.goalType = GoalType.time →
      (keepWriting s).session.goalValue = s.goalValue + 10)
    ∧ (s.goalType = GoalType.words →
      (keepWriting s).session.goalValue = ceilTimesOnePointTwo s.goalValue)
    ∧ ceilTimesOnePointTwo 100 = 120
    ∧ (keepWriting { initialSession with
          goalType := GoalType.time, goalValue := 25 }).session.goalValue = 35
    ∧ (keepWriting s).session.goalTriggered = false
    ∧ (keepWriting s).session.goalCompleted = false
    ∧ (keepWriting s).session.active = true
    ∧ (keepWriting s).session.timerInterval = true
    ∧ (keepWriting s).session.autoSaveInterval = true
    ∧ (keepWriting s).reengageLockdownRequested = false
    ∧ (∀ evs, (runEvents (keepWriting s).session evs).2 ≤ 1)
    ∧ (s.goalType = GoalType.words → ∀ evs,
        (∃ c, SessionEvent.textChange c ∈ evs ∧
          ceilTimesOnePointTwo s.goalValue
            ≤ (countWords c : Int) - s.startWordCount) →
        (runEvents (keepWriting s).session evs).2 = 1) := by
  have hfields := keepWriting_session_fields s
  have hvtime : s.goalType = GoalType.time →
      (keepWriting s).session.goalValue = s.goalValue + 10 := by
    intro hgt
    simp [keepWriting, hgt]
  have hvwords : s.goalType = GoalType.words →
      (keepWriting s).session.goalValue = ceilTimesOnePointTwo s.goalValue := by
    intro hgt
    simp [keepWriting, hgt]
  refine ⟨hvtime, hvwords, by decide, by decide, hfields.2.1, hfields.2.2.1,
    hfields.2.2.2.1, hfields.2.2.2.2.1, hfields.2.2.2.2.2.1,
    hfields.2.2.2.2.2.2.2.2, fun evs => runEvents_le_one evs _, ?_⟩
  intro hgt evs hex
  apply runEvents_word_fire evs (keepWriting s).session
    (hfields.1.trans hgt) hfields.2.1
  rcases hex with ⟨c, hc, hge⟩
  refine ⟨c, hc, ?_⟩
  rw [hvwords hgt, hfields.2.2.2.2.2.2.1]
  exact hge

set_option maxRecDepth 8000 in
theorem c4_keep_writing_witness :
    (keepWriting demoGoalReachedWord).session.goalValue = 120
    ∧ (runEvents (keepWriting demoGoalReachedWord).session
        [SessionEvent.textChange manyWords]).2 = 1 := by
  obtain ⟨-, h2, -, -, -, -, -, -, -, -, -, h12⟩ :=
    c4_keep_writing demoGoalReachedWord
  refine ⟨by rw [h2 (by decide)]; decide, ?_⟩
  exact h12 (by decide) [SessionEvent.textChange manyWords]
    ⟨manyWords, List.mem_singleton.mpr rfl, by decide⟩

/-- **C5 counterexample.** The claim "save-and-exit ... always appends a
session-history entry" is false on the code: the `if (content)` truthiness
guard in the `end-session` handler skips the save, the archive and the
history append when the editor content is the empty string, so a session
exited with an empty editor leaves the persistence layer untouched. -/
theorem c5_save_and_exit_counterexample :
    (saveAndExit demoTimeDoneSession "" emptyPersist bootMain
      "2026-01-01T00:00:00Z").persist = emptyPersist
    ∧ ¬ ((saveAndExit demoTimeDoneSession "" emptyPersist bootMain
        "2026-01-01T00:00:00Z").persist.history.length
        = emptyPersist.history.length + 1) := by decide

/-- **C5 (amended).** For every session whose editor content is non-empty
at exit (and whose goal value is non-zero, as every validated goal is),
save-and-exit persists the final content, archives a timestamped copy
whose header carries the date, the word delta and the formatted duration,
and appends a session-history entry whose `completed` field equals the
value of `goalTriggered` at exit — whether or not the goal was reached;
with an empty editor the content-truthiness guard skips all three. -/
theorem c5_save_and_exit (s : Session) (content : String) (p : Persist)
    (m : MainState) (date : String) (hc : content ≠ "") (hg : s.goalValue ≠ 0) :
    (saveAndExit s content p m date).persist.draft = some content
    ∧ (saveAndExit s content p m date).persist.archives
        = p.archives ++ [{ date := date,
                           words := s.currentWordCount - s.startWordCount,
                           duration := formatTime s.elapsedSeconds,
                           content := content }]
    ∧ (saveAndExit s content p m date).persist.history
        = p.history ++ [{ date := date,
                          words := s.currentWordCount - s.startWordCount,
                          duration := some (formatTime s.elapsedSeconds),
                          goalType := some s.goalType,
                          goalValue := some s.goalValue,
                          completed := s.goalTriggered }]
    ∧ (saveAndExit s content p m date).session = initialSession
    ∧ (saveAndExit s content p m date).main.isSessionActive = false
    ∧ (saveAndExit s content p m date).main.sessionConfig = none := by
  have hd := formatTime_ne_empty s.elapsedSeconds
  refine ⟨?_, ?_, ?_, rfl, ?_, ?_⟩
  · simp [saveAndExit, ipcEndSession, archiveDraft, logSession,
      persistSaveContent, hc]
  · simp [saveAndExit, ipcEndSession, archiveDraft, logSession,
      persistSaveContent, hc, hd]
  · simp [saveAndExit, ipcEndSession, archiveDraft, logSession,
      persistSaveContent, hc, hd, hg]
  · simp only [saveAndExit, ipcEndSession]
    cases m.sessionConfig with
    | none => simp
    | some cfg => dsimp only; split_ifs <;> simp [exitLockdown]
  · simp only [saveAndExit, ipcEndSession]

theorem c5_save_and_exit_witness :
    (saveAndExit demoGoalReachedWord "hello world" emptyPersist bootMain
      "2026-01-01").persist.history
      = [{ date := "2026-01-01", words := 100,
             duration := some (formatTime 300),
             goalType := some GoalType.words,
             goalValue := some 100, completed := true }] := by
  have h := c5_save_and_exit demoGoalReachedWord "hello world" emptyPersist
    bootMain "2026-01-01" (by decide) (by decide)
  rw [h.2.2.1]
  rfl

/-- **C6 counterexample.** The claim that the effect of an emergency exit
is "to immediately persist the current content" is false when the editor
is empty: the `if (content)` truthiness guard in the `emergency-exit`
handler skips the save, so the previously stored draft survives instead of
being replaced by the (empty) current content. -/
theorem c6_emergency_exit_counterexample :
    (emergencyExit initialSession "" oldDraftPersist bootMain).persist
      = oldDraftPersist
    ∧ ¬ ((emergencyExit initialSession "" oldDraftPersist bootMain).persist.draft
        = some "") := by decide

/-- **C6 (amended).** Emergency exit triggers exactly when the emergency
field, uppercased and trimmed, equals "I GIVE UP" — so "i give up",
" I GIVE UP " and "I Give Up" all trigger while "I give" does not — and
its effect is to persist the current content when it is non-empty (an
empty editor leaves the draft untouched), with no archive copy and no
session-history entry, release the lockdown unconditionally, and reset
the session state to Idle. -/
theorem c6_emergency_exit (input : String) (s : Session) (content : String)
    (p : Persist) (m : MainState) (hc : content ≠ "") :
    (checkEmergencyPhrase "i give up" = true)
    ∧ (checkEmergencyPhrase " I GIVE UP " = true)
    ∧ (checkEmergencyPhrase "I Give Up" = true)
    ∧ (checkEmergencyPhrase "I give" = false)
    ∧ (checkEmergencyPhrase input = true ↔
        jsTrimStr (jsToUpper input) = "I GIVE UP")
    ∧ (emergencyExit s content p m).persist.draft = some content
    ∧ (emergencyExit s content p m).persist.archives = p.archives
    ∧ (emergencyExit s content p m).persist.history = p.history
    ∧ (emergencyExit s content p m).session = initialSession
    ∧ (emergencyExit s content p m).main.isSessionActive = false
    ∧ (emergencyExit s content p m).main.sessionConfig = none
    ∧ (∀ cfg, m.sessionConfig = some cfg → cfg.strictMode = true →
        (emergencyExit s content p m).main.kiosk = false
        ∧ (emergencyExit s content p m).main.fullScreen = false
        ∧ (emergencyExit s content p m).main.alwaysOnTop = false) := by
  refine ⟨by decide, by decide, by decide, by decide, ?_, ?_, ?_, ?_, rfl,
    ?_, ?_, ?_⟩
  · simp [checkEmergencyPhrase]
  · simp [emergencyExit, ipcEmergencyExit, persistSaveContent, hc]
  · simp [emergencyExit, ipcEmergencyExit, persistSaveContent, hc]
  · simp [emergencyExit, ipcEmergencyExit, persistSaveContent, hc]
  · simp only [emergencyExit, ipcEmergencyExit]
    cases m.sessionConfig with
    | none => simp
    | some cfg => dsimp only; split_ifs <;> simp [exitLockdown]
  · simp only [emergencyExit, ipcEmergencyExit]
  · intro cfg hcfg hstrict
    simp only [emergencyExit, ipcEmergencyExit, hcfg]
    try dsimp only
    split_ifs with hsm
    · simp [exitLockdown]
    · rw [hstrict] at hsm
      simp at hsm

theorem c6_emergency_exit_witness :
    (emergencyExit initialSession "draft body" oldDraftPersist
      (ipcStartSession bootMain
        { goalType := GoalType.words, goalValue := 500,
          strictMode := true })).persist.draft = some "draft body"
    ∧ (emergencyExit initialSession "draft body" oldDraftPersist
      (ipcStartSession bootMain
        { goalType := GoalType.words, goalValue := 500,
          strictMode := true })).main.kiosk = false := by
  have h := c6_emergency_exit "i give up" initialSession "draft body"
    oldDraftPersist (ipcStartSession bootMain
      { goalType := GoalType.words, goalValue := 500, strictMode := true })
    (by decide)
  exact ⟨h.2.2.2.2.2.1,
    (h.2.2.2.2.2.2.2.2.2.2.2
      { goalType := GoalType.words, goalValue := 500, strictMode := true }
      (by decide) rfl).1⟩

/-- **C7.** When the goal-reached transition fires, the autosave interval
is cleared, exactly one final save of the current content is performed
(the autosave guard passes because `goalCompleted` was just set), the main
process is asked to release the lockdown so the session becomes free even
in strict mode (`isSessionActive` drops, and under a strict config the
kiosk / fullscreen / always-on-top lockdown is lifted), and no sequence of
further editor or tick events ever reinstalls the autosave interval while
in GoalReached. -/
theorem c7_goal_reached (s : Session) (content : String) (m : MainState) :
    (goalReached s content m).session.autoSaveInterval = false
    ∧ (goalReached s content m).session.active = false
    ∧ (goalReached s content m).session.goalCompleted = true
    ∧ (goalReached s content m).savedContent = some content
    ∧ (goalReached s content m).main.isSessionActive = false
    ∧ (∀ cfg, m.sessionConfig = some cfg → cfg.strictMode = true →
        (goalReached s content m).main.kiosk = false
        ∧ (goalReached s content m).main.fullScreen = false
        ∧ (goalReached s content m).main.alwaysOnTop = false)
    ∧ (∀ evs, ((runEvents (goalReached s content m).session evs).1).autoSaveInterval
        = false) := by
  refine ⟨rfl, rfl, rfl, ?_, ?_, ?_, ?_⟩
  · simp [goalReached, autoSaveStep, goalReachedSession]
  · simp only [goalReached, ipcGoalReached]
    cases m.sessionConfig with
    | none => simp
    | some cfg => dsimp only; split_ifs <;> simp [showCompletion]
  · intro cfg hcfg hstrict
    simp only [goalReached, ipcGoalReached, hcfg]
    try dsimp only
    split_ifs with hsm
    · simp [showCompletion]
    · rw [hstrict] at hsm
      simp at hsm
  · intro evs
    exact runEvents_autosave_off evs _ rfl

theorem c7_goal_reached_witness :
    (goalReached demoGoalReachedWord "final text"
      (ipcStartSession bootMain
        { goalType := GoalType.words, goalValue := 100,
          strictMode := true })).main.kiosk = false
    ∧ (goalReached demoGoalReachedWord "final text"
      (ipcStartSession bootMain
        { goalType := GoalType.words, goalValue := 100,
          strictMode := true })).savedContent = some "final text" := by
  have h := c7_goal_reached demoGoalReachedWord "final text"
    (ipcStartSession bootMain
      { goalType := GoalType.words, goalValue := 100, strictMode := true })
  exact ⟨(h.2.2.2.2.2.1
      { goalType := GoalType.words, goalValue := 100, strictMode := true }
      (by decide) rfl).1,
    h.2.2.2.1⟩

/-- **C8 counterexample.** The claim that "in a non-strict Active session
a close attempt is not suppressed" is false on the code: the `start-
session` handler sets `isSessionActive` in the non-strict branch as well,
and the window close guard checks only `isSessionActive`, so the close is
suppressed for a non-strict session too. -/
theorem c8_close_suppression_counterexample :
    ¬ ((closeEvent (ipcStartSession bootMain
        { goalType := GoalType.words, goalValue := 500,
          strictMode := false })).prevented = false) := by decide

/-- **C8 (amended).** A host window-close event arriving while a session
is active is suppressed and surfaces the emergency-exit prompt — in strict
**and** non-strict sessions alike, because the guard is the
`isSessionActive` flag, which the `start-session` handler sets in both
branches.  Non-strict sessions do skip the lockdown engage (the kiosk and
always-on-top attributes stay untouched, only fullscreen is entered) while
following the identical state machine, and a close event with no active
session is not suppressed. -/
theorem c8_close_suppression (cfg : SessionConfig) (m : MainState) :
    (closeEvent (ipcStartSession m cfg)).prevented = true
    ∧ (closeEvent (ipcStartSession m cfg)).exitWarningSent = true
    ∧ (cfg.strictMode = true → (ipcStartSession m cfg).kiosk = true
        ∧ (ipcStartSession m cfg).alwaysOnTop = true)
    ∧ (cfg.strictMode = false → (ipcStartSession m cfg).kiosk = m.kiosk
        ∧ (ipcStartSession m cfg).alwaysOnTop = m.alwaysOnTop
        ∧ (ipcStartSession m cfg).fullScreen = true)
    ∧ (∀ m2 : MainState, m2.isSessionActive = false →
        (closeEvent m2).prevented = false
        ∧ (closeEvent m2).exitWarningSent = false) := by
  refine ⟨?_, ?_, ?_, ?_, ?_⟩
  · cases hsm : cfg.strictMode <;>
      simp [closeEvent, ipcStartSession, enterLockdown, hsm]
  · cases hsm : cfg.strictMode <;>
      simp [closeEvent, ipcStartSession, enterLockdown, hsm]
  · intro hsm
    simp [ipcStartSession, enterLockdown, hsm]
  · intro hsm
    simp [ipcStartSession, enterLockdown, hsm]
  · intro m2 h2
    simp [closeEvent, h2]

theorem c8_close_suppression_witness :
    ((closeEvent (ipcStartSession bootMain
        { goalType := GoalType.words, goalValue := 500,
          strictMode := true })).prevented = true)
    ∧ ((ipcStartSession bootMain
        { goalType := GoalType.words, goalValue := 500,
          strictMode := true }).kiosk = true)
    ∧ ((closeEvent bootMain).prevented = false) := by
  have h := c8_close_suppression
    { goalType := GoalType.words, goalValue := 500, strictMode := true }
    bootMain
  exact ⟨h.1, (h.2.2.1 rfl).1, (h.2.2.2.2 bootMain rfl).1⟩

/-- **C10.** If the editor content is the empty string when `end-session`
or `emergency-exit` is invoked, the persistence layer is left entirely
unchanged — no draft save, no archive file, no session-history entry (the
content-truthiness guard skips all three) — while for non-empty content
the respective saves occur. -/
theorem c10_empty_content_frame (p : Persist) (m : MainState) (stats : Stats)
    (date : String) (content : String) (hc : content ≠ "") :
    ((ipcEndSession p m "" stats date).1 = p)
    ∧ ((ipcEmergencyExit p m "").1 = p)
    ∧ ((ipcEndSession p m content stats date).1.draft = some content)
    ∧ ((ipcEndSession p m content stats date).1.archives.length
        = p.archives.length + 1)
    ∧ ((ipcEndSession p m content stats date).1.history.length
        = p.history.length + 1)
    ∧ ((ipcEmergencyExit p m content).1 = persistSaveContent p content) := by
  refine ⟨?_, ?_, ?_, ?_, ?_, ?_⟩ <;>
    simp [ipcEndSession, ipcEmergencyExit, archiveDraft, logSession,
      persistSaveContent, hc]

theorem c10_empty_content_frame_witness :
    ((ipcEndSession emptyPersist bootMain "" demoStats "2026-01-01").1
      = emptyPersist)
    ∧ ((ipcEndSession emptyPersist bootMain "x" demoStats "2026-01-01").1.history.length
      = 1) := by
  have h := c10_empty_content_frame emptyPersist bootMain demoStats
    "2026-01-01" "x" (by decide)
  exact ⟨h.1, by rw [h.2.2.2.2.1]; rfl⟩

end FocusWriter
